import Mathlib

/-
  Verification of the tool abstraction subsystem of the fab build system:
  a shallow embedding of fab/tools/compiler_wrapper.py and
  fab/tools/linker.py, together with the parts of the base classes
  (Compiler, Tool) that those two files rely on, modelled from the
  design document where the base-class sources are not available.

  Stateful Python methods are embedded as explicit state-passing
  functions: a method that may raise returns an Except value paired
  with the post-call object state (a raised exception does not roll
  back prior mutations, so the state component is meaningful on the
  error path as well).
-/

deriving instance DecidableEq for Except

namespace Fab

/-- Modelled from the spec: the fields of the Compiler base class
(fab/tools/compiler.py, not part of the sources) that the two embedded
files read or write: display name, executable name (mutable via
change_exec_name), the flag store, the lazily cached version tuple,
whether it is a Fortran compiler, the availability of the executable,
the OpenMP flag and the output-naming flag. -/
structure Compiler where
  name : String
  exec_name : String
  flags : List String
  version : Option (List Nat)
  isFortran : Bool
  available : Bool
  openmp_flag : String
  output_flag : String
deriving Repr, DecidableEq

/-- Modelled from the spec: the display form of a tool is its name. -/
def Compiler.str (c : Compiler) : String := c.name

/-- Modelled from the spec: change_exec_name performs a transient
executable substitution by overwriting the executable name. -/
def Compiler.change_exec_name (c : Compiler) (n : String) : Compiler :=
  { c with exec_name := n }

/-- Modelled from the spec: Tool.add_flags appends to the private flag
store of the object it is called on. -/
def Compiler.add_flags (c : Compiler) (fs : List String) : Compiler :=
  { c with flags := c.flags ++ fs }

/-- Dot-joined form of a version tuple, as produced by
get_version_string. -/
def version_string (v : List Nat) : String :=
  String.intercalate "." (v.map (fun n => toString n))

/-- Modelled from the spec: the external world seen by get_version.
Given an executable name, running its version query either yields a
parsed version tuple or fails (tool not found, command failed, or
unrecognised version output). -/
abbrev VersionEnv : Type := String → Except String (List Nat)

/-- Modelled from the spec: Compiler.get_version (design document
section 4.3). Return the cached version if present; otherwise run the
version query on the current executable name, cache the tuple on
success, and leave the cache untouched on failure. -/
def Compiler.get_version (env : VersionEnv) (c : Compiler) :
    Except String (List Nat) × Compiler :=
  match c.version with
  | some v => (.ok v, c)
  | none =>
    match env c.exec_name with
    | .ok v => (.ok v, { c with version := some v })
    | .error e => (.error e, c)

/-- State of a CompilerWrapper (compiler_wrapper.py): its own name and
executable name, the wrapped compiler, its own (inherited) version
cache, and its own Tool-level flag store. -/
structure CompilerWrapper where
  name : String
  exec_name : String
  compiler : Compiler
  version : Option (List Nat)
  wrapper_flags : List String
deriving Repr, DecidableEq

/-- Source compiler_wrapper.py lines 46-47: the display form of a
wrapper names the class and the wrapped compiler. -/
def CompilerWrapper.str (w : CompilerWrapper) : String :=
  "CompilerWrapper(" ++ w.compiler.name ++ ")"

/-- Source compiler_wrapper.py lines 63-65: message raised when the
version query of the wrapped compiler fails. -/
def cannot_get_version_msg (c : Compiler) : String :=
  "Cannot get version of wrapped compiler \x27" ++ Compiler.str c

/-- Source compiler_wrapper.py lines 73-76: the version mismatch
message, naming both tools and both version strings. -/
def mismatch_msg (compilerStr compilerVer wrapperStr wrapperVer : String) : String :=
  "Different version for compiler \x27" ++ compilerStr ++ "\x27 (" ++
    compilerVer ++ ") and compiler wrapper \x27" ++ wrapperStr ++ "\x27 (" ++
    wrapperVer ++ ")."

/-- Source compiler_wrapper.py lines 49-78: CompilerWrapper.get_version.
If the own cache is set, return it. Otherwise query the wrapped
compiler (wrapping a failure in the cannot-get-version error), then run
the inherited Compiler.get_version on the wrapper itself, which queries
the executable of the wrapper and caches the parsed tuple on the
wrapper on success. If the two tuples differ, raise the mismatch error;
otherwise store and return the tuple. -/
def CompilerWrapper.get_version (env : VersionEnv) (w : CompilerWrapper) :
    Except String (List Nat) × CompilerWrapper :=
  match w.version with
  | some v => (.ok v, w)
  | none =>
    match Compiler.get_version env w.compiler with
    | (.error _, c1) =>
        (.error (cannot_get_version_msg c1), { w with compiler := c1 })
    | (.ok compiler_version, c1) =>
        match env w.exec_name with
        | .error e => (.error e, { w with compiler := c1 })
        | .ok wrapper_version =>
          if compiler_version ≠ wrapper_version then
            (.error (mismatch_msg (Compiler.str c1)
                      (version_string compiler_version)
                      (CompilerWrapper.str
                        { w with compiler := c1,
                                 version := some wrapper_version })
                      (version_string wrapper_version)),
             { w with compiler := c1, version := some wrapper_version })
          else
            (.ok wrapper_version,
             { w with compiler := c1, version := some wrapper_version })

/-- Source compiler_wrapper.py lines 108-111: the flags property of a
wrapper returns the flags of the wrapped compiler. -/
def CompilerWrapper.flags (w : CompilerWrapper) : List String :=
  w.compiler.flags

/-- Modelled from the spec: Tool.add_flags on the wrapper appends to
the private flag store of the wrapper itself. -/
def CompilerWrapper.add_flags (w : CompilerWrapper) (fs : List String) :
    CompilerWrapper :=
  { w with wrapper_flags := w.wrapper_flags ++ fs }

/-- Source compiler_wrapper.py lines 172-174: message raised when
syntax_only is passed for a wrapped non-Fortran compiler. -/
def syntax_only_msg (name : String) : String :=
  "Syntax-only cannot be used with compiler \x27" ++ name ++ "\x27."

/-- Source compiler_wrapper.py lines 146-178: CompilerWrapper.compile_file.
The delegate argument models the compile_file method of the wrapped
compiler (assembling arguments and invoking the executable, with no
further mutation of the compiler object); it may fail. The wrapper
saves the executable name of the wrapped compiler, substitutes its own
executable name, delegates (raising first if syntax_only is passed for
a non-Fortran compiler), and restores the original name only on the
normal-return path: a propagating exception leaves the substitution in
place, because the source has no try/finally around the delegation. -/
def CompilerWrapper.compile_file
    (delegate : Compiler → Option Bool → Except String Unit)
    (w : CompilerWrapper) (syntax_only : Option Bool) :
    Except String Unit × CompilerWrapper :=
  let orig_compiler_name := w.compiler.exec_name
  let c1 := w.compiler.change_exec_name w.exec_name
  let result : Except String Unit :=
    if c1.isFortran then
      delegate c1 syntax_only
    else
      match syntax_only with
      | some _ => .error (syntax_only_msg w.name)
      | none => delegate c1 none
  match result with
  | .error e => (.error e, { w with compiler := c1 })
  | .ok _ =>
      (.ok (), { w with compiler := c1.change_exec_name orig_compiler_name })

/-- Per-level private state of a Linker (linker.py lines 67-73): its own
Tool-level flag store (seeded from LDFLAGS), the registry mapping a
library name to its flag list, and the pre- and post-library flag
lists. The registry is an association list looked up by first match;
add_lib_flags keeps keys unique by replacing an existing entry. -/
structure LinkerOwn where
  flags : List String
  lib_flags : List (String × List String)
  pre_lib_flags : List String
  post_lib_flags : List String
deriving Repr, DecidableEq

/-- A constructed Linker decorates exactly one of a Compiler or another
Linker (linker.py lines 35-55); a chain of linkers therefore terminates
in a linker that holds a compiler. -/
inductive Linker where
  | ofCompiler (own : LinkerOwn) (c : Compiler)
  | ofLinker (own : LinkerOwn) (inner : Linker)
deriving Repr, DecidableEq

/-- Source linker.py lines 40-42: error when both a compiler and a
linker are passed to the constructor. -/
def both_msg : String :=
  "Both compiler and linker is specified in linker constructor."

/-- Source linker.py lines 43-45: error when neither a compiler nor a
linker is passed to the constructor. -/
def neither_msg : String :=
  "Neither compiler nor linker is specified in linker constructor."

/-- Source linker.py lines 35-73: the Linker constructor. Exactly one
of compiler and linker must be given; the fresh instance starts with
its Tool-level flags seeded from LDFLAGS and empty library, pre- and
post-flag stores. -/
def Linker.construct (compiler : Option Compiler) (linker : Option Linker)
    (ldflags : List String) : Except String Linker :=
  match compiler, linker with
  | some _, some _ => .error both_msg
  | none, none => .error neither_msg
  | some c, none => .ok (.ofCompiler ⟨ldflags, [], [], []⟩ c)
  | none, some l => .ok (.ofLinker ⟨ldflags, [], [], []⟩ l)

/-- Own per-level state of the outermost linker. -/
def Linker.own : Linker → LinkerOwn
  | .ofCompiler own _ => own
  | .ofLinker own _ => own

/-- Source linker.py lines 75-82: check_available asks the wrapped
compiler, or recursively the wrapped linker. The availability of the
wrapped compiler is its check_available outcome, modelled from the spec
as a boolean. -/
def Linker.check_available : Linker → Bool
  | .ofCompiler _ c => c.available
  | .ofLinker _ inner => inner.check_available

/-- Source linker.py lines 84-90: the executable name is taken from the
wrapped compiler, or recursively from the wrapped linker. -/
def Linker.exec_name : Linker → String
  | .ofCompiler _ c => c.exec_name
  | .ofLinker _ inner => inner.exec_name

/-- Source linker.py lines 116-123: the output flag is taken from the
wrapped compiler, or recursively from the wrapped linker. -/
def Linker.output_flag : Linker → String
  | .ofCompiler _ c => c.output_flag
  | .ofLinker _ inner => inner.output_flag

/-- Source linker.py lines 241-248: the terminal compiler of a chain,
found by following the wrapped linkers. -/
def Linker.terminalCompiler : Linker → Compiler
  | .ofCompiler _ c => c
  | .ofLinker _ inner => inner.terminalCompiler

/-- Number of chain levels that directly wrap a compiler. -/
def Linker.compilerNodeCount : Linker → Nat
  | .ofCompiler _ _ => 1
  | .ofLinker _ inner => inner.compilerNodeCount

/-- The per-level own states of a chain, outermost first. -/
def Linker.levels : Linker → List LinkerOwn
  | .ofCompiler own _ => [own]
  | .ofLinker own inner => own :: inner.levels

/-- Source linker.py line 141: the unknown-library error message. -/
def unknown_lib_msg (lib : String) : String :=
  "Unknown library name: \x27" ++ lib ++ "\x27"

/-- Source linker.py lines 125-141: get_lib_flags returns the own entry
for the library if present, otherwise delegates to the wrapped linker,
and raises the unknown-library error at the end of the chain. -/
def Linker.get_lib_flags : Linker → String → Except String (List String)
  | .ofCompiler own _, lib =>
    match own.lib_flags.lookup lib with
    | some fs => .ok fs
    | none => .error (unknown_lib_msg lib)
  | .ofLinker own inner, lib =>
    match own.lib_flags.lookup lib with
    | some fs => .ok fs
    | none => inner.get_lib_flags lib

/-- Spec-side characterisation: the registration of the nearest
(outermost) chain level that has an entry for the library. -/
def Linker.nearestLookup : Linker → String → Option (List String)
  | .ofCompiler own _, lib => own.lib_flags.lookup lib
  | .ofLinker own inner, lib =>
    match own.lib_flags.lookup lib with
    | some fs => some fs
    | none => inner.nearestLookup lib

/-- Whether any level of the chain has registered the library. -/
def Linker.chainHas (l : Linker) (lib : String) : Bool :=
  (l.nearestLookup lib).isSome

/-- Source linker.py lines 143-158: add_lib_flags stores a copy of the
flag list under the library name, replacing an existing entry. -/
def Linker.add_lib_flags (l : Linker) (lib : String) (fs : List String) :
    Linker :=
  let replace := fun (own : LinkerOwn) =>
    { own with lib_flags :=
        (own.lib_flags.filter (fun p => p.1 ≠ lib)) ++ [(lib, fs)] }
  match l with
  | .ofCompiler own c => .ofCompiler (replace own) c
  | .ofLinker own inner => .ofLinker (replace own) inner

/-- Source linker.py lines 170-175: add_pre_lib_flags appends to the
locally held list. -/
def Linker.add_pre_lib_flags (l : Linker) (fs : List String) : Linker :=
  match l with
  | .ofCompiler own c =>
      .ofCompiler { own with pre_lib_flags := own.pre_lib_flags ++ fs } c
  | .ofLinker own inner =>
      .ofLinker { own with pre_lib_flags := own.pre_lib_flags ++ fs } inner

/-- Source linker.py lines 177-182: add_post_lib_flags appends to the
locally held list. -/
def Linker.add_post_lib_flags (l : Linker) (fs : List String) : Linker :=
  match l with
  | .ofCompiler own c =>
      .ofCompiler { own with post_lib_flags := own.post_lib_flags ++ fs } c
  | .ofLinker own inner =>
      .ofLinker { own with post_lib_flags := own.post_lib_flags ++ fs } inner

/-- Source linker.py lines 184-204: get_pre_link_flags puts the own
pre-library flags first, followed by the recursively collected
pre-link flags of the wrapped linker. -/
def Linker.get_pre_link_flags : Linker → List String
  | .ofCompiler own _ => own.pre_lib_flags
  | .ofLinker own inner => own.pre_lib_flags ++ inner.get_pre_link_flags

/-- Source linker.py lines 206-223: get_post_link_flags puts the
recursively collected post-link flags of the wrapped linker first,
followed by the own post-library flags. -/
def Linker.get_post_link_flags : Linker → List String
  | .ofCompiler own _ => own.post_lib_flags
  | .ofLinker own inner => inner.get_post_link_flags ++ own.post_lib_flags

/-- Source linker.py lines 258-259: the loop resolving each requested
library through get_lib_flags, in caller-supplied order, concatenating
the results and propagating the first failure. -/
def Linker.collectLibFlags (l : Linker) : List String → Except String (List String)
  | [] => .ok []
  | lib :: rest =>
    match l.get_lib_flags lib with
    | .error e => .error e
    | .ok fs =>
      match l.collectLibFlags rest with
      | .error e => .error e
      | .ok more => .ok (fs ++ more)

/-- Lexicographic comparison of character lists by code point, the
order the Python sorted builtin uses on strings. -/
def charListLe : List Char → List Char → Bool
  | [], _ => true
  | _ :: _, [] => false
  | a :: as, b :: bs =>
    if a.toNat < b.toNat then true
    else if b.toNat < a.toNat then false
    else charListLe as bs

/-- Lexicographic order on strings by code point. -/
def strLe (a b : String) : Bool := charListLe a.data b.data

instance : DecidableRel (fun a b : String => strLe a b = true) :=
  fun a b => inferInstanceAs (Decidable (strLe a b = true))

instance : IsTotal String (fun a b : String => strLe a b = true) := by
  constructor
  intro x y
  show charListLe x.data y.data = true ∨ charListLe y.data x.data = true
  generalize x.data = as
  generalize y.data = bs
  induction as generalizing bs with
  | nil => left; rfl
  | cons a as ih =>
    cases bs with
    | nil => right; rfl
    | cons b bs =>
      simp only [charListLe]
      rcases Nat.lt_trichotomy a.toNat b.toNat with h | h | h
      · left; simp [h]
      · rcases ih bs with h2 | h2 <;>
          [left; right] <;> simp [h, h2, Nat.lt_irrefl]
      · right; simp [h]

instance : IsTrans String (fun a b : String => strLe a b = true) := by
  constructor
  intro x y z h1 h2
  show charListLe x.data z.data = true
  rw [show strLe x y = charListLe x.data y.data from rfl] at h1
  rw [show strLe y z = charListLe y.data z.data from rfl] at h2
  generalize x.data = as at h1 ⊢
  generalize y.data = bs at h1 h2
  generalize z.data = cs at h2 ⊢
  induction as generalizing bs cs with
  | nil => rfl
  | cons a as ih =>
    cases bs with
    | nil => simp [charListLe] at h1
    | cons b bs =>
      cases cs with
      | nil => simp [charListLe] at h2
      | cons c cs =>
        simp only [charListLe] at h1 h2 ⊢
        by_cases hab : a.toNat < b.toNat <;>
          by_cases hba : b.toNat < a.toNat <;>
          by_cases hbc : b.toNat < c.toNat <;>
          by_cases hcb : c.toNat < b.toNat <;>
          simp [hab, hba, hbc, hcb] at h1 h2 ⊢ <;>
          first
          | omega
          | (have hac : a.toNat < c.toNat := by omega; simp [hac])
          | (have hac : ¬ a.toNat < c.toNat := by omega
             have hca : ¬ c.toNat < a.toNat := by omega
             simp [hac, hca]
             first
             | exact ih bs cs h1 h2
             | exact ih bs h1 cs h2
             | exact ⟨by omega, ih bs cs h1 h2⟩
             | exact ⟨by omega, ih bs h1 cs h2⟩)

/-- Embedding of the Python sorted builtin on strings: an ascending
lexicographic sort (for the antisymmetric total order on strings the
sorted output is unique, so stability is irrelevant). -/
def sortStrings (xs : List String) : List String :=
  List.insertionSort (fun a b => strLe a b = true) xs

/-- Modelled from the spec: Tool.run invokes the executable followed by
the own Tool-level flags of the object and then the given arguments;
the returned list is the single subprocess invocation performed. -/
def Linker.run (l : Linker) (params : List String) : List String :=
  l.exec_name :: (l.own.flags ++ params)

/-- Source linker.py lines 225-264: link assembles, after the
executable and the own flags added by run, the flags of the terminal
compiler, the OpenMP flag of that compiler if requested, the input
files sorted as strings, the chain pre-link flags, the flags of each
requested library (failing on an unknown library before any
invocation), the chain post-link flags, and the output flag with the
output path; the success value is the argument list of the one
subprocess invocation, and an error means no invocation happened. -/
def Linker.link (l : Linker) (input_files : List String)
    (output_file : String) (openmp : Bool) (libs : List String) :
    Except String (List String) :=
  let compiler := l.terminalCompiler
  let params :=
    compiler.flags ++
    (if openmp then [compiler.openmp_flag] else []) ++
    sortStrings input_files ++
    l.get_pre_link_flags
  match l.collectLibFlags libs with
  | .error e => .error e
  | .ok lib_flags =>
    .ok (l.run (params ++ lib_flags ++ l.get_post_link_flags ++
                [l.output_flag, output_file]))

/-
  Concrete fixtures, mirroring the stub tools used by the unit tests,
  for the witness and counterexample theorems.
-/

/-- A stub C compiler. -/
def cEx : Compiler :=
  { name := "some c", exec_name := "sc", flags := [], version := none,
    isFortran := false, available := true, openmp_flag := "-omp",
    output_flag := "-o" }

/-- A stub Fortran compiler. -/
def fEx : Compiler :=
  { name := "some fortran", exec_name := "sfort", flags := [],
    version := none, isFortran := true, available := true,
    openmp_flag := "-omp", output_flag := "-o" }

/-- A wrapper around the stub C compiler. -/
def wEx : CompilerWrapper :=
  { name := "some c wrapper", exec_name := "wrapc", compiler := cEx,
    version := none, wrapper_flags := [] }

/-- An environment in which compiler and wrapper report the same
version. -/
def envEq : VersionEnv := fun s =>
  if s = "sc" then .ok [1, 2, 3]
  else if s = "wrapc" then .ok [1, 2, 3]
  else .error ("tool not found")

/-- An environment in which compiler and wrapper report different
versions. -/
def envMis : VersionEnv := fun s =>
  if s = "sc" then .ok [1, 2, 3]
  else if s = "wrapc" then .ok [4, 5, 6]
  else .error ("tool not found")

/-- An environment in which every version query fails. -/
def envFail : VersionEnv := fun _ => .error ("tool not found")

/-- The stub C compiler with its version cached. -/
def cEx123 : Compiler := { cEx with version := some [1, 2, 3] }

/-- The wrapper state after a successful version query. -/
def wExOk : CompilerWrapper :=
  { wEx with compiler := cEx123, version := some [1, 2, 3] }

/-- The stub C compiler with two flags, for the link-assembly scenario. -/
def cLink : Compiler := { cEx with flags := ["-a", "-b"] }

/-- A linker around the stub C compiler with the netcdf library
registered. -/
def lNetcdf : Linker :=
  Linker.ofCompiler ⟨[], [("netcdf", ["-lnetcdff", "-lnetcdf"])], [], []⟩ cLink

/-- The inner linker of a two-level chain. -/
def lInner : Linker :=
  Linker.ofCompiler
    ⟨[], [("lib_a", ["a_from_1"]), ("lib_c", ["c_from_1"])],
     ["pre_lib1"], ["post_lib1"]⟩ cEx

/-- Own state of the outer linker of the two-level chain. -/
def ownOuter : LinkerOwn :=
  ⟨[], [("lib_b", ["b_from_2"]), ("lib_c", ["c_from_2"])],
   ["pre_lib2"], ["post_lib2"]⟩

/-- The outer linker of the two-level chain. -/
def lOuter : Linker := Linker.ofLinker ownOuter lInner

/-- A bare linker around the stub C compiler, with nothing registered. -/
def lBare : Linker := Linker.ofCompiler ⟨[], [], [], []⟩ cEx

/-- A wrapper around a stub Fortran compiler. -/
def wfEx : CompilerWrapper :=
  { name := "some fortran wrapper", exec_name := "wrapf", compiler := fEx,
    version := none, wrapper_flags := [] }

/-- The stub C compiler with flags, for the flag-independence scenario. -/
def cAB : Compiler := { cEx with flags := ["-a", "-b"] }

/-- A wrapper around cAB. -/
def wAB : CompilerWrapper :=
  { name := "some wrapper", exec_name := "wrapper", compiler := cAB,
    version := none, wrapper_flags := [] }

/-
  Shared helper lemmas.
-/

/-- The chain lookup of get_lib_flags is the nearest registration. -/
theorem get_lib_flags_spec (l : Linker) (lib : String) :
    l.get_lib_flags lib =
      (match l.nearestLookup lib with
       | some fs => Except.ok fs
       | none => Except.error (unknown_lib_msg lib)) := by
  induction l with
  | ofCompiler own c => rfl
  | ofLinker own inner ih =>
    cases h : own.lib_flags.lookup lib with
    | some fs => simp [Linker.get_lib_flags, Linker.nearestLookup, h]
    | none => simp [Linker.get_lib_flags, Linker.nearestLookup, h, ih]

/-- When a library is registered somewhere in the chain, get_lib_flags
succeeds. -/
theorem get_lib_flags_of_chainHas (l : Linker) (lib : String)
    (h : l.chainHas lib = true) :
    ∃ fs, l.nearestLookup lib = some fs ∧ l.get_lib_flags lib = Except.ok fs := by
  unfold Linker.chainHas at h
  cases hn : l.nearestLookup lib with
  | some fs => exact ⟨fs, rfl, by rw [get_lib_flags_spec, hn]⟩
  | none => rw [hn] at h; simp at h

/-- When a library is registered nowhere in the chain, get_lib_flags
fails with the unknown-library message. -/
theorem get_lib_flags_of_not_chainHas (l : Linker) (lib : String)
    (h : l.chainHas lib = false) :
    l.get_lib_flags lib = Except.error (unknown_lib_msg lib) := by
  unfold Linker.chainHas at h
  cases hn : l.nearestLookup lib with
  | some fs => rw [hn] at h; simp at h
  | none => rw [get_lib_flags_spec, hn]

/-- When every requested library resolves, the library-flag loop
returns the per-library flags concatenated in caller order. -/
theorem collectLibFlags_ok (l : Linker) (f : String → List String) :
    ∀ libs : List String,
      (∀ lib ∈ libs, l.get_lib_flags lib = Except.ok (f lib)) →
      l.collectLibFlags libs = Except.ok ((libs.map f).flatten) := by
  intro libs h
  induction libs with
  | nil => simp [Linker.collectLibFlags]
  | cons lib rest ih =>
    have h1 : l.get_lib_flags lib = Except.ok (f lib) := h lib (by simp)
    have h2 := ih (fun x hx => h x (by simp [hx]))
    simp [Linker.collectLibFlags, h1, h2]

/-- When some requested library resolves nowhere in the chain, the
library-flag loop fails with the unknown-library message of such a
library. -/
theorem collectLibFlags_unknown (l : Linker) :
    ∀ libs : List String, (∃ lib ∈ libs, l.chainHas lib = false) →
      ∃ bad ∈ libs, l.chainHas bad = false ∧
        l.collectLibFlags libs = Except.error (unknown_lib_msg bad) := by
  intro libs
  induction libs with
  | nil => rintro ⟨lib, h, _⟩; simp at h
  | cons lib rest ih =>
    rintro ⟨x, hx, hxf⟩
    by_cases hl : l.chainHas lib = false
    · have hg := get_lib_flags_of_not_chainHas l lib hl
      exact ⟨lib, by simp, hl, by simp [Linker.collectLibFlags, hg]⟩
    · have hx' : x ∈ rest := by
        rcases List.mem_cons.mp hx with rfl | hr
        · exact absurd hxf hl
        · exact hr
      obtain ⟨bad, hb, hbf, hc⟩ := ih ⟨x, hx', hxf⟩
      have hl' : l.chainHas lib = true := by
        cases hcas : l.chainHas lib with
        | false => exact absurd hcas hl
        | true => rfl
      obtain ⟨fs, _, hfs⟩ := get_lib_flags_of_chainHas l lib hl'
      exact ⟨bad, by simp [hb], hbf,
             by simp [Linker.collectLibFlags, hfs, hc]⟩

/-
  Claim theorems.
-/

/-- C8: constructing a Linker succeeds exactly when one of compiler and
linker is supplied: both or neither raise the respective constructor
error, and every constructed chain contains exactly one level that
wraps a compiler (the terminal one). -/
theorem linker_construct_exactly_one :
    (∀ (c : Compiler) (l : Linker) (ld : List String),
      Linker.construct (some c) (some l) ld = Except.error both_msg) ∧
    (∀ ld : List String,
      Linker.construct none none ld = Except.error neither_msg) ∧
    (∀ (c : Compiler) (ld : List String),
      Linker.construct (some c) none ld =
        Except.ok (Linker.ofCompiler ⟨ld, [], [], []⟩ c)) ∧
    (∀ (l : Linker) (ld : List String),
      Linker.construct none (some l) ld =
        Except.ok (Linker.ofLinker ⟨ld, [], [], []⟩ l)) ∧
    (∀ l : Linker, l.compilerNodeCount = 1) := by
  refine ⟨fun _ _ _ => rfl, fun _ => rfl, fun _ _ => rfl, fun _ _ => rfl, ?_⟩
  intro l
  induction l with
  | ofCompiler own c => rfl
  | ofLinker own inner ih => simpa [Linker.compilerNodeCount] using ih

/-- C10: the availability of a linker is answered entirely by the tool
it decorates: the wrapped compiler is asked directly, a wrapped linker
recursively, so a chain reports the availability of its terminal
compiler. -/
theorem linker_check_available_delegates :
    (∀ (own : LinkerOwn) (c : Compiler),
      (Linker.ofCompiler own c).check_available = c.available) ∧
    (∀ (own : LinkerOwn) (inner : Linker),
      (Linker.ofLinker own inner).check_available = inner.check_available) ∧
    (∀ l : Linker, l.check_available = l.terminalCompiler.available) := by
  refine ⟨fun _ _ => rfl, fun _ _ => rfl, ?_⟩
  intro l
  induction l with
  | ofCompiler own c => rfl
  | ofLinker own inner ih =>
    simpa [Linker.check_available, Linker.terminalCompiler] using ih

/-- C4: get_lib_flags returns the registration of the nearest
(outermost) chain level that has the library, a level with its own
registration shadows the wrapped chain (no merge), a level without one
delegates unchanged, and the unknown-library error occurs exactly when
no level of the chain has an entry. -/
theorem get_lib_flags_nearest_wins :
    (∀ (l : Linker) (lib : String),
      l.get_lib_flags lib =
        (match l.nearestLookup lib with
         | some fs => Except.ok fs
         | none => Except.error (unknown_lib_msg lib))) ∧
    (∀ (own : LinkerOwn) (inner : Linker) (lib : String) (fs : List String),
      own.lib_flags.lookup lib = some fs →
        (Linker.ofLinker own inner).get_lib_flags lib = Except.ok fs) ∧
    (∀ (own : LinkerOwn) (inner : Linker) (lib : String),
      own.lib_flags.lookup lib = none →
        (Linker.ofLinker own inner).get_lib_flags lib =
          inner.get_lib_flags lib) ∧
    (∀ (l : Linker) (lib : String),
      l.get_lib_flags lib = Except.error (unknown_lib_msg lib) ↔
        l.chainHas lib = false) := by
  refine ⟨get_lib_flags_spec, ?_, ?_, ?_⟩
  · intro own inner lib fs h
    simp [Linker.get_lib_flags, h]
  · intro own inner lib h
    simp [Linker.get_lib_flags, h]
  · intro l lib
    constructor
    · intro h
      cases hcas : l.chainHas lib with
      | false => rfl
      | true =>
        obtain ⟨fs, _, hfs⟩ := get_lib_flags_of_chainHas l lib hcas
        rw [h] at hfs
        exact absurd hfs (by simp)
    · intro h
      exact get_lib_flags_of_not_chainHas l lib h

/-- C4 witness: in the two-level chain both levels register lib_c; the
outer resolves to its own registration only. -/
theorem get_lib_flags_nearest_wins_witness :
    lOuter.get_lib_flags "lib_c" = Except.ok ["c_from_2"] :=
  get_lib_flags_nearest_wins.2.1 ownOuter lInner "lib_c" ["c_from_2"] (by decide)

/-- C5: for a linker wrapping another linker, the assembled pre-link
flags put the own pre-library flags of the outer level first, followed
by the recursively collected pre-link flags of the wrapped linker,
while the assembled post-link flags put the recursively collected
post-link flags of the wrapped linker first and the own post-library
flags of the outer level last; over a whole chain this flattens the
per-level pre-flag lists outermost first and the per-level post-flag
lists outermost last. -/
theorem linker_pre_post_link_flag_order :
    (∀ (own : LinkerOwn) (inner : Linker),
      (Linker.ofLinker own inner).get_pre_link_flags =
        own.pre_lib_flags ++ inner.get_pre_link_flags ∧
      (Linker.ofLinker own inner).get_post_link_flags =
        inner.get_post_link_flags ++ own.post_lib_flags) ∧
    (∀ l : Linker,
      l.get_pre_link_flags =
        (l.levels.map LinkerOwn.pre_lib_flags).flatten ∧
      l.get_post_link_flags =
        ((l.levels.map LinkerOwn.post_lib_flags).reverse).flatten) := by
  refine ⟨fun _ _ => ⟨rfl, rfl⟩, ?_⟩
  intro l
  induction l with
  | ofCompiler own c => simp [Linker.get_pre_link_flags,
      Linker.get_post_link_flags, Linker.levels]
  | ofLinker own inner ih =>
    refine ⟨?_, ?_⟩
    · simp [Linker.get_pre_link_flags, Linker.levels, ih.1]
    · simp [Linker.get_post_link_flags, Linker.levels, ih.2]

/-- C6: when every requested library resolves somewhere in the chain,
link invokes the executable once with, after the executable and the
own flags of the linker, exactly: the flags of the terminal compiler,
its OpenMP flag when openmp is requested, the input paths sorted
lexicographically as strings, the chain pre-link flags, the registered
flags of each requested library in caller-supplied order, the chain
post-link flags, and the output flag with the output path; the sort is
an ascending lexicographic permutation of the inputs. -/
theorem linker_link_assembly
    (l : Linker) (input_files : List String) (output_file : String)
    (openmp : Bool) (libs : List String) (f : String → List String)
    (h : ∀ lib ∈ libs, l.get_lib_flags lib = Except.ok (f lib)) :
    l.link input_files output_file openmp libs =
      Except.ok (l.exec_name ::
        (l.own.flags ++
         (l.terminalCompiler.flags ++
          (if openmp then [l.terminalCompiler.openmp_flag] else []) ++
          sortStrings input_files ++
          l.get_pre_link_flags ++
          (libs.map f).flatten ++
          l.get_post_link_flags ++
          [l.output_flag, output_file]))) ∧
    List.Sorted (fun a b : String => strLe a b = true)
      (sortStrings input_files) ∧
    List.Perm (sortStrings input_files) input_files := by
  refine ⟨?_, List.sorted_insertionSort _ _, List.perm_insertionSort _ _⟩
  simp [Linker.link, collectLibFlags_ok l f libs h, Linker.run,
        List.append_assoc]

/-- C6 witness: the link-assembly scenario of the design document, a
linker over a C compiler with flags -a -b, OpenMP flag -omp, one object
file, openmp requested, and the netcdf library registered. -/
theorem linker_link_assembly_witness :
    lNetcdf.link ["a.o"] "a.out" true ["netcdf"] =
      Except.ok ["sc", "-a", "-b", "-omp", "a.o", "-lnetcdff", "-lnetcdf",
                 "-o", "a.out"] := by
  have h := (linker_link_assembly lNetcdf ["a.o"] "a.out" true ["netcdf"]
    (fun _ => ["-lnetcdff", "-lnetcdf"]) (by decide)).1
  exact h.trans (by decide)

/-- C7: when some requested library is registered nowhere in the chain,
link fails with the unknown-library error of such a library; the
invocation argument list is only produced on the success path, so no
subprocess invocation occurs. -/
theorem linker_link_unknown_library_atomic
    (l : Linker) (input_files : List String) (output_file : String)
    (openmp : Bool) (libs : List String)
    (h : ∃ lib ∈ libs, l.chainHas lib = false) :
    ∃ bad ∈ libs, l.chainHas bad = false ∧
      l.link input_files output_file openmp libs =
        Except.error (unknown_lib_msg bad) := by
  obtain ⟨bad, hb, hbf, hc⟩ := collectLibFlags_unknown l libs h
  exact ⟨bad, hb, hbf, by simp [Linker.link, hc]⟩

/-- C7 witness: requesting a library that was never registered makes
link fail with the unknown-library error and no invocation. -/
theorem linker_link_unknown_library_atomic_witness :
    (∃ lib ∈ (["doesnotexist"] : List String),
        lBare.chainHas lib = false) ∧
    (∃ bad ∈ (["doesnotexist"] : List String), lBare.chainHas bad = false ∧
      lBare.link ["a.o"] "a.out" true ["doesnotexist"] =
        Except.error (unknown_lib_msg bad)) :=
  ⟨by decide,
   linker_link_unknown_library_atomic lBare ["a.o"] "a.out" true
     ["doesnotexist"] (by decide)⟩

/-- C1: on a wrapper with no cached version, get_version queries the
wrapped compiler and the executable of the wrapper itself; equal tuples
are returned and cached on the wrapper, different tuples raise the
mismatch error naming both tools and both version strings. -/
theorem wrapper_get_version_first_call
    (env : VersionEnv) (w : CompilerWrapper) (cv wv : List Nat)
    (c1 : Compiler)
    (hcache : w.version = none)
    (hc : Compiler.get_version env w.compiler = (Except.ok cv, c1))
    (hw : env w.exec_name = Except.ok wv) :
    (cv = wv →
      CompilerWrapper.get_version env w =
        (Except.ok wv, { w with compiler := c1, version := some wv })) ∧
    (cv ≠ wv →
      CompilerWrapper.get_version env w =
        (Except.error (mismatch_msg (Compiler.str c1) (version_string cv)
            ("CompilerWrapper(" ++ c1.name ++ ")") (version_string wv)),
         { w with compiler := c1, version := some wv })) := by
  constructor
  · intro heq
    subst heq
    simp [CompilerWrapper.get_version, hcache, hc, hw]
  · intro hne
    simp [CompilerWrapper.get_version, hcache, hc, hw, hne,
          CompilerWrapper.str]

/-- C1 witness: compiler and wrapper both report 1.2.3, so get_version
returns the tuple and caches it on the wrapper. -/
theorem wrapper_get_version_first_call_witness :
    CompilerWrapper.get_version envEq wEx = (Except.ok [1, 2, 3], wExOk) :=
  (wrapper_get_version_first_call envEq wEx [1, 2, 3] [1, 2, 3] cEx123
    rfl (by decide) (by decide)).1 rfl

/-- C2, evaluated at the failing inputs: compile_file leaves the
executable name of the wrapped compiler swapped to the wrapper name
when an exception propagates, both on the syntax-only check for a
non-Fortran compiler and on a failing delegated compile, while the
normal-return path does restore it. -/
theorem wrapper_compile_file_exec_name_not_restored :
    (wEx.compiler.exec_name = "sc" ∧
     (CompilerWrapper.compile_file (fun _ _ => Except.ok ()) wEx
        (some true)).1 = Except.error (syntax_only_msg "some c wrapper") ∧
     (CompilerWrapper.compile_file (fun _ _ => Except.ok ()) wEx
        (some true)).2.compiler.exec_name = "wrapc") ∧
    (wfEx.compiler.exec_name = "sfort" ∧
     (CompilerWrapper.compile_file
        (fun _ _ => Except.error ("compile failed")) wfEx none).1 =
          Except.error ("compile failed") ∧
     (CompilerWrapper.compile_file
        (fun _ _ => Except.error ("compile failed")) wfEx
        none).2.compiler.exec_name = "wrapf") ∧
    ((CompilerWrapper.compile_file (fun _ _ => Except.ok ()) wfEx
        none).2.compiler.exec_name = "sfort") :=
  ⟨⟨rfl, rfl, rfl⟩, ⟨rfl, rfl, rfl⟩, rfl⟩

/-- C3, evaluated at the failing input: the flag stores are independent
(adding to the wrapper leaves the wrapped compiler untouched, and
compiler-side additions are visible through the wrapper), but the flags
property of the wrapper returns only the flags of the wrapped compiler
and omits the own flags of the wrapper entirely. -/
theorem wrapper_flags_property_vs_own_flags :
    ((wAB.add_flags ["-d", "-e"]).compiler.flags = ["-a", "-b"]) ∧
    ((wAB.add_flags ["-d", "-e"]).wrapper_flags = ["-d", "-e"]) ∧
    (CompilerWrapper.flags (wAB.add_flags ["-d", "-e"]) = ["-a", "-b"]) ∧
    (CompilerWrapper.flags (wAB.add_flags ["-d", "-e"]) ≠
      ["-a", "-b", "-d", "-e"]) ∧
    (CompilerWrapper.flags { wAB with compiler := cAB.add_flags ["-x"] } =
      ["-a", "-b", "-x"]) :=
  ⟨rfl, rfl, rfl, by decide, rfl⟩

/-- C9 (amended): a successful get_version caches the tuple, and every
later call returns it unchanged whatever the tools would now report; a
failure of the wrapped-compiler query leaves the cache unpopulated; but
a version-mismatch failure leaves the own version of the wrapper
cached (stored by the inherited base-class query before the mismatch
check), so a later call returns that version without re-querying. -/
theorem wrapper_get_version_cache_behaviour :
    (∀ (env : VersionEnv) (w : CompilerWrapper) (v : List Nat)
       (w' : CompilerWrapper),
      CompilerWrapper.get_version env w = (Except.ok v, w') →
      ∀ env2 : VersionEnv,
        CompilerWrapper.get_version env2 w' = (Except.ok v, w')) ∧
    (∀ (env : VersionEnv) (w : CompilerWrapper) (e : String),
      w.version = none → w.compiler.version = none →
      env w.compiler.exec_name = Except.error e →
      CompilerWrapper.get_version env w =
        (Except.error (cannot_get_version_msg w.compiler), w)) ∧
    (∀ (env : VersionEnv) (w : CompilerWrapper) (cv wv : List Nat)
       (c1 : Compiler),
      w.version = none →
      Compiler.get_version env w.compiler = (Except.ok cv, c1) →
      env w.exec_name = Except.ok wv → cv ≠ wv →
      ((CompilerWrapper.get_version env w).2.version = some wv ∧
       ∀ env2 : VersionEnv,
         CompilerWrapper.get_version env2
             (CompilerWrapper.get_version env w).2 =
           (Except.ok wv, (CompilerWrapper.get_version env w).2))) := by
  refine ⟨?_, ?_, ?_⟩
  · intro env w v w' h env2
    cases hv : w.version with
    | some v0 =>
      simp [CompilerWrapper.get_version, hv] at h
      obtain ⟨rfl, rfl⟩ := h
      simp [CompilerWrapper.get_version, hv]
    | none =>
      rcases hcp : Compiler.get_version env w.compiler with ⟨rc, c1⟩
      cases rc with
      | error e => simp [CompilerWrapper.get_version, hv, hcp] at h
      | ok cv =>
        cases hw : env w.exec_name with
        | error e => simp [CompilerWrapper.get_version, hv, hcp, hw] at h
        | ok wv =>
          by_cases hne : cv = wv
          · subst hne
            simp [CompilerWrapper.get_version, hv, hcp, hw] at h
            obtain ⟨rfl, rfl⟩ := h
            simp [CompilerWrapper.get_version]
          · simp [CompilerWrapper.get_version, hv, hcp, hw, hne] at h
  · intro env w e hv hcv he
    have hcomp : Compiler.get_version env w.compiler =
        (Except.error e, w.compiler) := by
      simp [Compiler.get_version, hcv, he]
    cases w with
    | mk n ex c ver wf =>
      simp only at hv
      subst hv
      simp [CompilerWrapper.get_version, hcomp]
  · intro env w cv wv c1 hv hcp hw hne
    have h2 : (CompilerWrapper.get_version env w).2 =
        { w with compiler := c1, version := some wv } := by
      simp [CompilerWrapper.get_version, hv, hcp, hw, hne]
    refine ⟨by rw [h2], ?_⟩
    intro env2
    rw [h2]
    simp [CompilerWrapper.get_version]

/-- C9 witness: after the successful query under envEq, a second call
under an environment in which every query fails still returns the
cached tuple and the unchanged state. -/
theorem wrapper_get_version_cache_behaviour_witness :
    CompilerWrapper.get_version envFail wExOk = (Except.ok [1, 2, 3], wExOk) :=
  wrapper_get_version_cache_behaviour.1 envEq wEx [1, 2, 3] wExOk
    (by decide) envFail

/-- C9 counterexample: under envMis the first call fails with the
version mismatch, yet the version cache of the wrapper is populated
with the own version of the wrapper, and a later call returns that
version without re-attempting any query (here under an environment in
which every query fails). -/
theorem wrapper_get_version_mismatch_populates_cache :
    ((CompilerWrapper.get_version envMis wEx).1 =
      Except.error (mismatch_msg "some c" "1.2.3" "CompilerWrapper(some c)"
        "4.5.6")) ∧
    ((CompilerWrapper.get_version envMis wEx).2.version = some [4, 5, 6]) ∧
    ((CompilerWrapper.get_version envMis wEx).2.version ≠ none) ∧
    (CompilerWrapper.get_version envFail
        ((CompilerWrapper.get_version envMis wEx).2) =
      (Except.ok [4, 5, 6], (CompilerWrapper.get_version envMis wEx).2)) :=
  ⟨rfl, rfl, by decide, rfl⟩

end Fab
